import Mathlib

/-!
Shallow embedding of the freetype-pp header (src/inc/freetype/freetype.hpp),
a scope-bound ownership and exception adapter over the FreeType C engine.
The engine itself is external to this repository; it is modelled as an
oracle structure `Engine` giving, for each engine entry point, the error
code it returns and the data it produces.  Each wrapper operation is
embedded as a function returning the list of engine calls it performs
together with an `Except Failure` value mirroring C++ exception flow:
`Except.error` is a thrown exception, `Except.ok` a normal return.
Mutable engine-side face state (the single glyph slot and the size
metrics) is passed explicitly as a `FaceState` value.
-/

namespace ft

/-- FreeType error code FT_Err_Invalid_Character_Code (0x38). -/
def FT_Err_Invalid_Character_Code : Nat := 0x38

/-- FreeType load flag FT_LOAD_DEFAULT (0). -/
def FT_LOAD_DEFAULT : Nat := 0

/-- FreeType render mode FT_RENDER_MODE_NORMAL (0). -/
def FT_RENDER_MODE_NORMAL : Nat := 0

/-- the modulus of C uint32_t arithmetic, 2 to the power 32. -/
def u32 : Nat := 4294967296

/-- constexpr auto default_dpi = 96 from the header. -/
def default_dpi : Nat := 96

/-- FT_ULong character code. -/
abbrev CharCode := Nat

/-- one call into the external engine, with the arguments passed to it. -/
inductive EngineCall where
  | initFreeType
  | doneFreeType (library : Nat)
  | newFace (library : Nat) (path : String) (index : Int)
  | doneFace (face : Nat)
  | setCharSize (face width height horzRes vertRes : Nat)
  | getCharIndex (face : Nat) (code : CharCode)
  | loadGlyph (face index flags : Nat)
  | renderGlyph (slot mode : Nat)
  deriving DecidableEq, Repr

/-- contents of the single glyph slot of a face: the fields the wrapper
exposes (metrics, bitmap, bitmap_left, bitmap_top), each abstracted to
plain data since the wrapper never inspects them. -/
structure SlotContent where
  metrics : Nat
  bitmap : Nat
  bitmap_left : Int
  bitmap_top : Int
  deriving DecidableEq, Repr

/-- engine-side mutable state of one face: the address of its single glyph
slot (a fixed field of the face record, never changed by any operation),
the current contents stored at that address, and the current size metrics. -/
structure FaceState where
  slotPtr : Nat
  slot : SlotContent
  sizeMetrics : Nat
  deriving DecidableEq, Repr

/-- oracle model of the external FreeType engine: for every entry point the
wrapper uses, the code the engine would return and the data it would
produce.  Handles are natural numbers, 0 standing for a null handle. -/
structure Engine where
  errorString : Nat → String
  initError : Nat
  initHandle : Nat
  doneError : Nat → Nat
  newFaceError : Nat → String → Int → Nat
  newFaceHandle : Nat → String → Int → Nat
  doneFaceError : Nat → Nat
  setCharSizeError : Nat → Nat → Nat → Nat → Nat → Nat
  sizeMetricsFor : Nat → Nat → Nat → Nat → Nat → Nat
  charIndex : Nat → CharCode → Nat
  loadGlyphError : Nat → Nat → Nat → Nat
  glyphContent : Nat → Nat → Nat → SlotContent
  renderError : SlotContent → Nat → Nat
  renderedSlot : SlotContent → Nat → SlotContent

/-- payload of ft::Exception, which derives std::runtime_error: the message
string passed to the base class at construction. -/
structure FtException where
  message : String
  deriving DecidableEq, Repr

/-- a raised failure: either a generic ft::Exception, or an
ft::InvalidCharCodeException, which extends the generic one with the
offending character code stored in its _code field. -/
inductive Failure where
  | exception (e : FtException)
  | invalidCharCode (e : FtException) (code : CharCode)
  deriving DecidableEq, Repr

/-- Exception::Exception(FT_Error error) : std::runtime_error(FT_Error_String(error)). -/
def mkException (eng : Engine) (error : Nat) : Failure :=
  Failure.exception ⟨eng.errorString error⟩

/-- InvalidCharCodeException::InvalidCharCodeException(CharCode code) :
Exception(FT_Err_Invalid_Character_Code), _code initialized to code. -/
def mkInvalidCharCodeException (eng : Engine) (code : CharCode) : Failure :=
  Failure.invalidCharCode ⟨eng.errorString FT_Err_Invalid_Character_Code⟩ code

/-- what std::runtime_error::what() reports for a raised failure. -/
def Failure.message : Failure → String
  | .exception e => e.message
  | .invalidCharCode e _ => e.message

/-- the character code carried by a failure, when it is an
InvalidCharCodeException (its code() accessor). -/
def Failure.charCode : Failure → Option CharCode
  | .exception _ => none
  | .invalidCharCode _ c => some c

/-- ft::Glyph: a non-owning view, wrapping the FT_GlyphSlot pointer value. -/
structure Glyph where
  glyph : Nat
  deriving DecidableEq, Repr

/-- ft::Face: owns an FT_Face handle. -/
structure Face where
  face : Nat
  deriving DecidableEq, Repr

/-- ft::Library: owns an FT_Library handle. -/
structure Library where
  library : Nat
  deriving DecidableEq, Repr

/-- result of one wrapper operation: the engine calls it performed, and
either its return value or the raised failure. -/
abbrev FtResult (α : Type) := List EngineCall × Except Failure α

/-- memory read at a slot pointer: defined exactly when the pointer is the
address of the face glyph slot, in which case it yields the current slot
contents. -/
def readSlot (st : FaceState) (p : Nat) : Option SlotContent :=
  if p = st.slotPtr then some st.slot else none

/-- Glyph::metrics(): dereference the wrapped slot pointer and read the
metrics field of whatever the slot currently holds. -/
def Glyph.metricsOf (g : Glyph) (st : FaceState) : Option Nat :=
  (readSlot st g.glyph).map SlotContent.metrics

/-- Glyph::bitmap(): dereference the wrapped slot pointer and read the
bitmap field. -/
def Glyph.bitmapOf (g : Glyph) (st : FaceState) : Option Nat :=
  (readSlot st g.glyph).map SlotContent.bitmap

/-- Glyph::bitmap_left(). -/
def Glyph.bitmapLeftOf (g : Glyph) (st : FaceState) : Option Int :=
  (readSlot st g.glyph).map SlotContent.bitmap_left

/-- Glyph::bitmap_top(). -/
def Glyph.bitmapTopOf (g : Glyph) (st : FaceState) : Option Int :=
  (readSlot st g.glyph).map SlotContent.bitmap_top

/-- Glyph::render(renderMode): calls FT_Render_Glyph on the wrapped slot;
throws Exception(error) on a nonzero code, otherwise the engine mutates the
slot bitmap fields in place. -/
def Glyph.render (eng : Engine) (g : Glyph) (st : FaceState) (renderMode : Nat) :
    FtResult FaceState :=
  ([EngineCall.renderGlyph g.glyph renderMode],
   if eng.renderError st.slot renderMode ≠ 0 then
     Except.error (mkException eng (eng.renderError st.slot renderMode))
   else
     Except.ok { st with slot := eng.renderedSlot st.slot renderMode })

/-- Glyph::render() with the defaulted renderMode argument. -/
def Glyph.render1 (eng : Engine) (g : Glyph) (st : FaceState) : FtResult FaceState :=
  Glyph.render eng g st FT_RENDER_MODE_NORMAL

/-- Face::set_char_size(width, height, horz_res, vert_res): calls
FT_Set_Char_Size and throws Exception(error) on a nonzero code. -/
def Face.set_char_size (eng : Engine) (f : Face) (st : FaceState)
    (width height horz_res vert_res : Nat) : FtResult FaceState :=
  ([EngineCall.setCharSize f.face width height horz_res vert_res],
   if eng.setCharSizeError f.face width height horz_res vert_res ≠ 0 then
     Except.error (mkException eng (eng.setCharSizeError f.face width height horz_res vert_res))
   else
     Except.ok { st with sizeMetrics := eng.sizeMetricsFor f.face width height horz_res vert_res })

/-- Face::set_char_size(pt, dpi): the convenience overload,
set_char_size(0, pt * 64, 0, dpi), where pt * 64 is computed in uint32_t
arithmetic and therefore reduced modulo 2 to the power 32. -/
def Face.set_char_size_pt (eng : Engine) (f : Face) (st : FaceState) (pt dpi : Nat) :
    FtResult FaceState :=
  Face.set_char_size eng f st 0 (pt * 64 % u32) 0 dpi

/-- Face::set_char_size(pt) with the defaulted dpi argument. -/
def Face.set_char_size_pt1 (eng : Engine) (f : Face) (st : FaceState) (pt : Nat) :
    FtResult FaceState :=
  Face.set_char_size_pt eng f st pt default_dpi

/-- Face::get_char_index(code): calls FT_Get_Char_Index; when the lookup
yields index zero it throws InvalidCharCodeException(code), otherwise it
returns the index. -/
def Face.get_char_index (eng : Engine) (f : Face) (code : CharCode) : FtResult Nat :=
  let index := eng.charIndex f.face code
  ([EngineCall.getCharIndex f.face code],
   if index = 0 then Except.error (mkInvalidCharCodeException eng code)
   else Except.ok index)

/-- Face::load_glyph(index, flags): calls FT_Load_Glyph, which loads the
glyph data into the single glyph slot of the face; throws Exception(error)
on a nonzero code, otherwise returns Glyph constructed from the slot
pointer of the face together with the updated face state. -/
def Face.load_glyph (eng : Engine) (f : Face) (st : FaceState) (index flags : Nat) :
    FtResult (Glyph × FaceState) :=
  ([EngineCall.loadGlyph f.face index flags],
   if eng.loadGlyphError f.face index flags ≠ 0 then
     Except.error (mkException eng (eng.loadGlyphError f.face index flags))
   else
     Except.ok (⟨st.slotPtr⟩, { st with slot := eng.glyphContent f.face index flags }))

/-- Face::load_glyph(index) with the defaulted flags argument. -/
def Face.load_glyph1 (eng : Engine) (f : Face) (st : FaceState) (index : Nat) :
    FtResult (Glyph × FaceState) :=
  Face.load_glyph eng f st index FT_LOAD_DEFAULT

/-- Face::metrics(): reads the size metrics of the face. -/
def Face.metricsOf (st : FaceState) : Nat := st.sizeMetrics

/-- the Face destructor: calls FT_Done_Face; a nonzero error code is
inspected and discarded (the throw in that branch is commented out in the
source), so both branches return normally. -/
def Face.done (eng : Engine) (f : Face) : FtResult Unit :=
  ([EngineCall.doneFace f.face],
   if eng.doneFaceError f.face ≠ 0 then Except.ok () else Except.ok ())

/-- Library::create_library(): calls FT_Init_FreeType on a null-initialized
handle; throws Exception(error) on a nonzero code, otherwise returns the
handle the engine wrote. -/
def Library.create_library (eng : Engine) : FtResult Nat :=
  ([EngineCall.initFreeType],
   if eng.initError ≠ 0 then Except.error (mkException eng eng.initError)
   else Except.ok eng.initHandle)

/-- Library::Library(): default construction, _library initialized from
create_library(). -/
def Library.init (eng : Engine) : FtResult Library :=
  ((Library.create_library eng).1, (Library.create_library eng).2.map Library.mk)

/-- the Library destructor: calls FT_Done_FreeType; a nonzero error code is
inspected and discarded (the throw in that branch is commented out in the
source). -/
def Library.done (eng : Engine) (lib : Library) : FtResult Unit :=
  ([EngineCall.doneFreeType lib.library],
   if eng.doneError lib.library ≠ 0 then Except.ok () else Except.ok ())

/-- std::string::c_str(): the raw character string of a std::string, which
holds exactly the same character sequence. -/
def c_str (s : String) : String := s

/-- std::filesystem::path, carrying its native string form. -/
structure FsPath where
  native : String
  deriving DecidableEq, Repr

/-- std::filesystem::path::string(): the path normalized to its string form. -/
def FsPath.string (p : FsPath) : String := p.native

/-- Library::new_face(const char* path, FT_Long index): calls FT_New_Face
and throws Exception(error) on a nonzero code, otherwise wraps the face
handle the engine wrote. -/
def Library.new_face (eng : Engine) (lib : Library) (path : String) (index : Int) :
    FtResult Face :=
  ([EngineCall.newFace lib.library path index],
   if eng.newFaceError lib.library path index ≠ 0 then
     Except.error (mkException eng (eng.newFaceError lib.library path index))
   else
     Except.ok ⟨eng.newFaceHandle lib.library path index⟩)

/-- Library::new_face(const std::string& path, FT_Long index): delegates to
the raw overload through path.c_str(). -/
def Library.new_face_str (eng : Engine) (lib : Library) (path : String) (index : Int) :
    FtResult Face :=
  Library.new_face eng lib (c_str path) index

/-- Library::new_face(const std::filesystem::path& path, FT_Long index):
delegates to the std::string overload through path.string(). -/
def Library.new_face_path (eng : Engine) (lib : Library) (path : FsPath) (index : Int) :
    FtResult Face :=
  Library.new_face_str eng lib (FsPath.string path) index

/-- Library::new_face(const char* path) with the defaulted index 0. -/
def Library.new_face1 (eng : Engine) (lib : Library) (path : String) : FtResult Face :=
  Library.new_face eng lib path 0

/-- Library::new_face(const std::string& path) with the defaulted index 0. -/
def Library.new_face_str1 (eng : Engine) (lib : Library) (path : String) : FtResult Face :=
  Library.new_face_str eng lib path 0

/-- Library::new_face(const std::filesystem::path& path) with the defaulted
index 0. -/
def Library.new_face_path1 (eng : Engine) (lib : Library) (path : FsPath) : FtResult Face :=
  Library.new_face_path eng lib path 0

/-- a concrete engine used to evaluate theorems on closed inputs:
initialization succeeds with handle 1, character code 66 maps to glyph
index 42, every other code is unmapped, and the fallible calls succeed
while the teardown calls report nonzero codes. -/
def engA : Engine where
  errorString := fun e => toString e
  initError := 0
  initHandle := 1
  doneError := fun _ => 3
  newFaceError := fun _ _ _ => 0
  newFaceHandle := fun _ _ _ => 2
  doneFaceError := fun _ => 4
  setCharSizeError := fun _ _ _ _ _ => 0
  sizeMetricsFor := fun _ _ h _ v => h + v
  charIndex := fun _ code => if code = 66 then 42 else 0
  loadGlyphError := fun _ _ _ => 0
  glyphContent := fun _ index flags => ⟨index, flags, 0, 0⟩
  renderError := fun _ _ => 0
  renderedSlot := fun s _ => { s with bitmap := s.bitmap + 1 }

/-- a concrete engine whose initialization fails with code 5. -/
def engErr : Engine := { engA with initError := 5 }

/-- a concrete face handle for closed evaluations. -/
def faceA : Face := ⟨2⟩

/-- a concrete initial face state: slot address 9, empty slot. -/
def stA : FaceState := ⟨9, ⟨0, 0, 0, 0⟩, 0⟩

/-- the face state after loading glyph 10 with flags 0 under engA. -/
def stB : FaceState := { stA with slot := ⟨10, 0, 0, 0⟩ }

/-- the face state after then loading glyph 11 with flags 0 under engA. -/
def stC : FaceState := { stA with slot := ⟨11, 0, 0, 0⟩ }

/-- helper: a result produced by checking an engine code is either the
success value or the translated failure, and it is the success value
exactly when the code is zero. -/
theorem ite_error_check {α : Type} (c : Nat) (v : α) (e : Failure) :
    ((if c ≠ 0 then Except.error e else Except.ok v) = Except.ok v ∨
     (if c ≠ 0 then Except.error e else Except.ok v) = Except.error e) ∧
    ((if c ≠ 0 then Except.error e else Except.ok v) = Except.ok v ↔ c = 0) := by
  by_cases hc : c = 0 <;> simp [hc]

/-- C1: for every character code, Face::get_char_index raises
InvalidCharCodeException carrying exactly that code when the engine
character-map lookup yields index zero, and otherwise returns the nonzero
glyph index obtained from the lookup. -/
theorem get_char_index_invalid_or_index (eng : Engine) (f : Face) (code : CharCode) :
    (eng.charIndex f.face code = 0 →
      (Face.get_char_index eng f code).2 =
        Except.error (mkInvalidCharCodeException eng code) ∧
      Failure.charCode (mkInvalidCharCodeException eng code) = some code) ∧
    (eng.charIndex f.face code ≠ 0 →
      (Face.get_char_index eng f code).2 = Except.ok (eng.charIndex f.face code)) := by
  unfold Face.get_char_index
  constructor
  · intro h0
    exact ⟨by simp [h0], rfl⟩
  · intro hne
    simp [hne]

/-- C1 witness: evaluated on a concrete engine, at an unmapped code (65)
and at a mapped code (66). -/
theorem get_char_index_invalid_or_index_w :
    (Face.get_char_index engA faceA 65).2 =
      Except.error (mkInvalidCharCodeException engA 65) ∧
    (Face.get_char_index engA faceA 66).2 = Except.ok 42 :=
  ⟨((get_char_index_invalid_or_index engA faceA 65).1 (by decide)).1,
   (get_char_index_invalid_or_index engA faceA 66).2 (by decide)⟩

/-- C2: the convenience overload set_char_size(pt, dpi) performs exactly
the engine call FT_Set_Char_Size(face, 0, pt * 64, 0, dpi) with pt * 64 in
uint32_t arithmetic, is observationally identical to the four-argument
overload on those arguments, and the defaulted dpi is 96. -/
theorem set_char_size_pt_delegates (eng : Engine) (f : Face) (st : FaceState)
    (pt dpi : Nat) :
    Face.set_char_size_pt eng f st pt dpi =
      Face.set_char_size eng f st 0 (pt * 64 % u32) 0 dpi ∧
    (Face.set_char_size_pt eng f st pt dpi).1 =
      [EngineCall.setCharSize f.face 0 (pt * 64 % u32) 0 dpi] ∧
    Face.set_char_size_pt1 eng f st pt = Face.set_char_size_pt eng f st pt 96 ∧
    default_dpi = 96 :=
  ⟨rfl, rfl, rfl, rfl⟩

/-- C3: a Glyph returned by load_glyph is a view over the single shared
glyph slot of its face: both loads return the same view, the slot address
is unchanged, and after a second load the first view reads the data of the
second glyph, not (when the metrics differ) the data of the first. -/
theorem load_glyph_shared_slot (eng : Engine) (f : Face) (st st1 st2 : FaceState)
    (i1 fl1 i2 fl2 : Nat) (g1 g2 : Glyph)
    (h1 : (Face.load_glyph eng f st i1 fl1).2 = Except.ok (g1, st1))
    (h2 : (Face.load_glyph eng f st1 i2 fl2).2 = Except.ok (g2, st2)) :
    g1.glyph = st.slotPtr ∧ g1 = g2 ∧ st2.slotPtr = st.slotPtr ∧
    Glyph.metricsOf g1 st2 = some (eng.glyphContent f.face i2 fl2).metrics ∧
    ((eng.glyphContent f.face i1 fl1).metrics ≠ (eng.glyphContent f.face i2 fl2).metrics →
      Glyph.metricsOf g1 st2 ≠ some (eng.glyphContent f.face i1 fl1).metrics) := by
  unfold Face.load_glyph at h1 h2
  dsimp only at h1 h2
  split at h1
  · exact absurd h1 (by simp)
  · split at h2
    · exact absurd h2 (by simp)
    · simp only [Except.ok.injEq, Prod.mk.injEq] at h1 h2
      obtain ⟨hg1, hst1⟩ := h1
      obtain ⟨hg2, hst2⟩ := h2
      subst hg1 hst1 hg2 hst2
      refine ⟨rfl, rfl, rfl, ?_, ?_⟩
      · simp [Glyph.metricsOf, readSlot]
      · intro hne
        simp [Glyph.metricsOf, readSlot]
        exact fun h => hne h.symm

/-- C3 witness: under the concrete engine, loading glyph 10 and then glyph
11 leaves the view of the first load reading metrics 11, not 10. -/
theorem load_glyph_shared_slot_w :
    Glyph.metricsOf ⟨9⟩ stC = some 11 ∧ Glyph.metricsOf ⟨9⟩ stC ≠ some 10 := by
  have h := load_glyph_shared_slot engA faceA stA stB stC 10 0 11 0 ⟨9⟩ ⟨9⟩ rfl rfl
  exact ⟨h.2.2.2.1, h.2.2.2.2 (by decide)⟩

/-- C4: the Face and Library destructors invoke the corresponding engine
release calls (FT_Done_Face, FT_Done_FreeType) and return normally for
every engine, discarding a nonzero error code without raising. -/
theorem destructors_swallow_errors (eng : Engine) (f : Face) (lib : Library) :
    Face.done eng f = ([EngineCall.doneFace f.face], Except.ok ()) ∧
    Library.done eng lib = ([EngineCall.doneFreeType lib.library], Except.ok ()) := by
  constructor <;> simp [Face.done, Library.done]

/-- C5: every fallible public operation other than teardown (Library
construction, new_face, set_char_size, load_glyph, render) performs its
single engine call, checks the returned code, and either returns the valid
result or raises the translated failure; it returns the valid result
exactly when the code is zero, so no error is reported through a sentinel
or null return. -/
theorem fallible_ops_check_codes (eng : Engine) (lib : Library) (f : Face)
    (g : Glyph) (st : FaceState) (path : String) (idx : Int)
    (w ht hr vr gi fl mode : Nat) :
    (Library.create_library eng).1 = [EngineCall.initFreeType] ∧
    ((Library.create_library eng).2 = Except.ok eng.initHandle ∨
     (Library.create_library eng).2 = Except.error (mkException eng eng.initError)) ∧
    ((Library.create_library eng).2 = Except.ok eng.initHandle ↔ eng.initError = 0) ∧
    (Library.new_face eng lib path idx).1 = [EngineCall.newFace lib.library path idx] ∧
    ((Library.new_face eng lib path idx).2 =
        Except.ok ⟨eng.newFaceHandle lib.library path idx⟩ ∨
     (Library.new_face eng lib path idx).2 =
        Except.error (mkException eng (eng.newFaceError lib.library path idx))) ∧
    ((Library.new_face eng lib path idx).2 =
        Except.ok ⟨eng.newFaceHandle lib.library path idx⟩ ↔
      eng.newFaceError lib.library path idx = 0) ∧
    (Face.set_char_size eng f st w ht hr vr).1 =
      [EngineCall.setCharSize f.face w ht hr vr] ∧
    ((Face.set_char_size eng f st w ht hr vr).2 =
        Except.ok { st with sizeMetrics := eng.sizeMetricsFor f.face w ht hr vr } ∨
     (Face.set_char_size eng f st w ht hr vr).2 =
        Except.error (mkException eng (eng.setCharSizeError f.face w ht hr vr))) ∧
    ((Face.set_char_size eng f st w ht hr vr).2 =
        Except.ok { st with sizeMetrics := eng.sizeMetricsFor f.face w ht hr vr } ↔
      eng.setCharSizeError f.face w ht hr vr = 0) ∧
    (Face.load_glyph eng f st gi fl).1 = [EngineCall.loadGlyph f.face gi fl] ∧
    ((Face.load_glyph eng f st gi fl).2 =
        Except.ok (⟨st.slotPtr⟩, { st with slot := eng.glyphContent f.face gi fl }) ∨
     (Face.load_glyph eng f st gi fl).2 =
        Except.error (mkException eng (eng.loadGlyphError f.face gi fl))) ∧
    ((Face.load_glyph eng f st gi fl).2 =
        Except.ok (⟨st.slotPtr⟩, { st with slot := eng.glyphContent f.face gi fl }) ↔
      eng.loadGlyphError f.face gi fl = 0) ∧
    (Glyph.render eng g st mode).1 = [EngineCall.renderGlyph g.glyph mode] ∧
    ((Glyph.render eng g st mode).2 =
        Except.ok { st with slot := eng.renderedSlot st.slot mode } ∨
     (Glyph.render eng g st mode).2 =
        Except.error (mkException eng (eng.renderError st.slot mode))) ∧
    ((Glyph.render eng g st mode).2 =
        Except.ok { st with slot := eng.renderedSlot st.slot mode } ↔
      eng.renderError st.slot mode = 0) := by
  unfold Library.create_library Library.new_face Face.set_char_size Face.load_glyph
    Glyph.render
  dsimp only
  exact ⟨rfl, (ite_error_check _ _ _).1, (ite_error_check _ _ _).2, rfl,
    (ite_error_check _ _ _).1, (ite_error_check _ _ _).2, rfl,
    (ite_error_check _ _ _).1, (ite_error_check _ _ _).2, rfl,
    (ite_error_check _ _ _).1, (ite_error_check _ _ _).2, rfl,
    (ite_error_check _ _ _).1, (ite_error_check _ _ _).2⟩

/-- C6: for every nonzero error code, the generic Exception constructed
from it carries as its message exactly the engine description string
FT_Error_String(code). -/
theorem exception_message_from_engine (eng : Engine) (error : Nat) (_hnz : error ≠ 0) :
    Failure.message (mkException eng error) = eng.errorString error := rfl

/-- C6 witness: evaluated at the concrete engine and error code 5. -/
theorem exception_message_from_engine_w :
    Failure.message (mkException engA 5) = engA.errorString 5 :=
  exception_message_from_engine engA 5 (by decide)

/-- C7: Library construction initializes the external engine, raises the
translated failure when initialization reports a nonzero code, and — given
the engine contract that a zero code comes with a valid handle — every
successful construction yields a non-null handle: construction failure is
reported as a raised error, never as a null handle. -/
theorem library_construction_spec (eng : Engine)
    (hc : eng.initError = 0 → eng.initHandle ≠ 0) :
    (Library.create_library eng).1 = [EngineCall.initFreeType] ∧
    (eng.initError ≠ 0 →
      (Library.create_library eng).2 = Except.error (mkException eng eng.initError)) ∧
    (∀ lb, (Library.create_library eng).2 = Except.ok lb → lb ≠ 0) := by
  refine ⟨rfl, ?_, ?_⟩
  · intro hne
    simp [Library.create_library, hne]
  · intro lb hok
    unfold Library.create_library at hok
    dsimp only at hok
    by_cases h0 : eng.initError = 0
    · simp only [h0, ne_eq, not_true_eq_false, if_false, if_neg,
        Except.ok.injEq, reduceIte] at hok
      exact hok ▸ hc h0
    · simp [h0] at hok

/-- C7 witness: a failing initialization (code 5) raises the translated
failure, and a successful initialization yields the nonzero handle 1. -/
theorem library_construction_spec_w :
    (Library.create_library engErr).2 = Except.error (mkException engErr 5) ∧
    (1 : Nat) ≠ 0 :=
  ⟨(library_construction_spec engErr (fun h => absurd h (by decide))).2.1 (by decide),
   (library_construction_spec engA (fun _ => by decide)).2.2 1 rfl⟩

/-- C9: the std::string and std::filesystem::path overloads of new_face are
pure delegations to the raw-path overload — through c_str, which preserves
the character sequence, and through path.string respectively — and the
face index defaults to 0 in all three overloads. -/
theorem new_face_overloads_delegate (eng : Engine) (lib : Library)
    (s : String) (p : FsPath) (i : Int) :
    Library.new_face_str eng lib s i = Library.new_face eng lib (c_str s) i ∧
    c_str s = s ∧
    Library.new_face_path eng lib p i =
      Library.new_face_str eng lib (FsPath.string p) i ∧
    Library.new_face_path eng lib p i =
      Library.new_face eng lib (FsPath.string p) i ∧
    Library.new_face1 eng lib s = Library.new_face eng lib s 0 ∧
    Library.new_face_str1 eng lib s = Library.new_face_str eng lib s 0 ∧
    Library.new_face_path1 eng lib p = Library.new_face_path eng lib p 0 :=
  ⟨rfl, rfl, rfl, rfl, rfl, rfl, rfl⟩

/-- C10: the convenience overload computes pt * 64 in 32-bit unsigned
arithmetic, so the height the engine receives is pt * 64 reduced modulo
4294967296 (2 to the power 32); this equals the mathematical product
exactly when pt is below 67108864 (2 to the power 26). -/
theorem set_char_size_pt_uint32_wrap (eng : Engine) (f : Face) (st : FaceState)
    (pt dpi : Nat) :
    (Face.set_char_size_pt eng f st pt dpi).1 =
      [EngineCall.setCharSize f.face 0 (pt * 64 % 4294967296) 0 dpi] ∧
    (pt * 64 % 4294967296 = pt * 64 ↔ pt < 67108864) := by
  refine ⟨rfl, ?_⟩
  omega

end ft
